import Mathlib

/-!
Verification of the brain-tumor classification Streamlit app
(`src/streamlit_app.py`) against its natural-language specification.

The numeric pipeline is shallowly embedded over `ℚ` (the idealization of
the float arithmetic in the source).  Third-party library primitives that
the script merely calls (cv2 resize / blur / color map, the Keras image
loader, the TensorFlow gradient computation, the network download, the
Streamlit secrets store) are abstracted as parameters; everything the
repository's own code computes — masking, min-max normalization,
percentile thresholding, alpha blending, uint8 casts, argmax/label
selection, path construction, cache checks, API-key resolution — is
translated directly from the source lines cited next to each definition.
-/

/-! ## List minimum / maximum (numpy `.min()` / `.max()` on a 1-d array) -/

/-- `numpy` `arr.max()` on a (nonempty) 1-d array; `0` on the empty list. -/
def listMax : List ℚ → ℚ
  | [] => 0
  | a :: t => t.foldl max a

/-- `numpy` `arr.min()` on a (nonempty) 1-d array; `0` on the empty list. -/
def listMin : List ℚ → ℚ
  | [] => 0
  | a :: t => t.foldl min a

theorem foldl_max_init_le (t : List ℚ) (a : ℚ) : a ≤ t.foldl max a := by
  induction t generalizing a with
  | nil => exact le_refl a
  | cons b t ih => exact le_trans (le_max_left a b) (ih (max a b))

theorem le_foldl_max_of_mem (t : List ℚ) (a v : ℚ) (hv : v ∈ t) :
    v ≤ t.foldl max a := by
  induction t generalizing a with
  | nil => cases hv
  | cons b t ih =>
    rcases List.mem_cons.mp hv with h | h
    · subst h
      exact le_trans (le_max_right a v) (foldl_max_init_le t (max a v))
    · exact ih (max a b) h

theorem le_listMax (l : List ℚ) (v : ℚ) (hv : v ∈ l) : v ≤ listMax l := by
  cases l with
  | nil => cases hv
  | cons a t =>
    rcases List.mem_cons.mp hv with h | h
    · subst h; exact foldl_max_init_le t v
    · exact le_foldl_max_of_mem t a v h

theorem foldl_min_le_init (t : List ℚ) (a : ℚ) : t.foldl min a ≤ a := by
  induction t generalizing a with
  | nil => exact le_refl a
  | cons b t ih => exact le_trans (ih (min a b)) (min_le_left a b)

theorem foldl_min_le_of_mem (t : List ℚ) (a v : ℚ) (hv : v ∈ t) :
    t.foldl min a ≤ v := by
  induction t generalizing a with
  | nil => cases hv
  | cons b t ih =>
    rcases List.mem_cons.mp hv with h | h
    · subst h
      exact le_trans (foldl_min_le_init t (min a v)) (min_le_right a v)
    · exact ih (min a b) h

theorem listMin_le (l : List ℚ) (v : ℚ) (hv : v ∈ l) : listMin l ≤ v := by
  cases l with
  | nil => cases hv
  | cons a t =>
    rcases List.mem_cons.mp hv with h | h
    · subst h; exact foldl_min_le_init t v
    · exact foldl_min_le_of_mem t a v h

theorem foldl_max_shift (t : List ℚ) (a b : ℚ) :
    t.foldl max (max a b) = max a (t.foldl max b) := by
  induction t generalizing a b with
  | nil => rfl
  | cons c t ih =>
    show t.foldl max (max (max a b) c) = max a (t.foldl max (max b c))
    rw [max_assoc, ih]

theorem listMax_cons_cons (a b : ℚ) (t : List ℚ) :
    listMax (a :: b :: t) = max a (listMax (b :: t)) := by
  show t.foldl max (max a b) = max a (t.foldl max b)
  exact foldl_max_shift t a b

/-! ## `np.argmax` (first index attaining the maximum) -/

/-- `np.argmax` on a 1-d array: the first index at which the maximum value
occurs (`0` on the empty list, where numpy would raise). -/
def npArgmax : List ℚ → ℕ
  | [] => 0
  | [_] => 0
  | a :: b :: t => if listMax (b :: t) ≤ a then 0 else npArgmax (b :: t) + 1

theorem npArgmax_lt_length (l : List ℚ) (h : l ≠ []) : npArgmax l < l.length := by
  induction l with
  | nil => exact absurd rfl h
  | cons a t ih =>
    cases t with
    | nil => simp [npArgmax]
    | cons b t' =>
      show (if listMax (b :: t') ≤ a then 0 else npArgmax (b :: t') + 1) <
        (a :: b :: t').length
      by_cases hc : listMax (b :: t') ≤ a
      · simp [hc]
      · have hlt := ih (List.cons_ne_nil b t')
        simp only [List.length_cons] at hlt ⊢
        simp only [if_neg hc]
        omega

theorem npArgmax_getD (l : List ℚ) (h : l ≠ []) :
    l.getD (npArgmax l) 0 = listMax l := by
  induction l with
  | nil => exact absurd rfl h
  | cons a t ih =>
    cases t with
    | nil => rfl
    | cons b t' =>
      show (a :: b :: t').getD (if listMax (b :: t') ≤ a then 0
        else npArgmax (b :: t') + 1) 0 = listMax (a :: b :: t')
      by_cases hc : listMax (b :: t') ≤ a
      · rw [if_pos hc, listMax_cons_cons]
        simpa using (max_eq_left hc).symm
      · rw [if_neg hc, listMax_cons_cons]
        have hm := ih (List.cons_ne_nil b t')
        have hlt : a ≤ listMax (b :: t') := le_of_lt (lt_of_not_le hc)
        simpa [List.getD_cons_succ] using hm.trans (max_eq_right hlt).symm

theorem npArgmax_first (l : List ℚ) :
    ∀ j, j < npArgmax l → l.getD j 0 < listMax l := by
  induction l with
  | nil => intro j hj; simp [npArgmax] at hj
  | cons a t ih =>
    cases t with
    | nil => intro j hj; simp [npArgmax] at hj
    | cons b t' =>
      intro j hj
      have hj' : j < (if listMax (b :: t') ≤ a then 0
        else npArgmax (b :: t') + 1) := hj
      by_cases hc : listMax (b :: t') ≤ a
      · rw [if_pos hc] at hj'; omega
      · rw [if_neg hc] at hj'
        have hlt : a < listMax (b :: t') := lt_of_not_le hc
        rw [listMax_cons_cons, max_eq_right (le_of_lt hlt)]
        cases j with
        | zero => simpa using hlt
        | succ k =>
          have hk : k < npArgmax (b :: t') := by omega
          simpa [List.getD_cons_succ] using ih k hk

theorem getD_mem_of_lt (l : List ℚ) (j : ℕ) (hj : j < l.length) :
    l.getD j 0 ∈ l := by
  induction l generalizing j with
  | nil => simp at hj
  | cons a t ih =>
    cases j with
    | zero => simp
    | succ k =>
      have hk : k < t.length := by simpa using hj
      exact List.mem_cons_of_mem a (by simpa [List.getD_cons_succ] using ih k hk)

/-! ## Presentation layer: labels and reported class
(src/streamlit_app.py lines 198, 208-209) -/

/-- Line 198: `labels = ['Glioma', 'Meningioma', 'No Tumor', 'Pituitary']`. -/
def labels : List String := ["Glioma", "Meningioma", "No Tumor", "Pituitary"]

/-- Lines 208-209: `class_index = np.argmax(prediction[0])` followed by
`result = labels[class_index]`. -/
def reportedClass (prediction : List ℚ) : String :=
  labels.getD (npArgmax prediction) ""

/-- C1: for every length-4 prediction vector, the label reported by the
presentation layer is the element of
`['Glioma', 'Meningioma', 'No Tumor', 'Pituitary']` at the argmax index of
the vector: the chosen index is in range, carries the maximal probability
(strictly greater than every earlier entry, as `np.argmax` returns the
first maximizer), and the reported string is `labels` at that index. -/
theorem reported_class_is_argmax_label (pred : List ℚ) (h : pred.length = 4) :
    reportedClass pred = labels.getD (npArgmax pred) "" ∧
    npArgmax pred < 4 ∧
    (∀ j, j < 4 → pred.getD j 0 ≤ pred.getD (npArgmax pred) 0) ∧
    (∀ j, j < npArgmax pred → pred.getD j 0 < pred.getD (npArgmax pred) 0) := by
  have hne : pred ≠ [] := by
    intro hnil; rw [hnil] at h; simp at h
  have hmax := npArgmax_getD pred hne
  refine ⟨rfl, by simpa [h] using npArgmax_lt_length pred hne, ?_, ?_⟩
  · intro j hj
    rw [hmax]
    exact le_listMax pred _ (getD_mem_of_lt pred j (by omega))
  · intro j hj
    rw [hmax]
    exact npArgmax_first pred j hj

/-- Concrete instance of C1: on the prediction vector
`[0.1, 0.7, 0.1, 0.1]` the reported class is `Meningioma` (index 1, the
argmax). -/
theorem reported_class_is_argmax_label_witness :
    reportedClass [1/10, 7/10, 1/10, 1/10] = "Meningioma" ∧
    (reportedClass [1/10, 7/10, 1/10, 1/10] =
      labels.getD (npArgmax [1/10, 7/10, 1/10, 1/10]) "" ∧
    npArgmax [1/10, 7/10, 1/10, 1/10] < 4 ∧
    (∀ j, j < 4 → ([1/10, 7/10, 1/10, 1/10] : List ℚ).getD j 0 ≤
      ([1/10, 7/10, 1/10, 1/10] : List ℚ).getD
        (npArgmax [1/10, 7/10, 1/10, 1/10]) 0) ∧
    (∀ j, j < npArgmax [1/10, 7/10, 1/10, 1/10] →
      ([1/10, 7/10, 1/10, 1/10] : List ℚ).getD j 0 <
      ([1/10, 7/10, 1/10, 1/10] : List ℚ).getD
        (npArgmax [1/10, 7/10, 1/10, 1/10]) 0)) := by
  constructor
  · norm_num [reportedClass, npArgmax, listMax, List.foldl, max_def, labels]
  · exact reported_class_is_argmax_label [1/10, 7/10, 1/10, 1/10] rfl

/-! ## Saliency renderer: data types and abstract library primitives
(src/streamlit_app.py lines 54-102)

Images are total functions from pixel coordinates; the spatial extent is
carried separately where a computation needs it.  `GrayImage` is a
single-channel float image, `ColorImage` a 3-channel float image, and
`ByteImage` a 3-channel uint8 image (channel values in `ℕ`). -/

abbrev GrayImage : Type := ℕ → ℕ → ℚ

abbrev ColorImage : Type := ℕ → ℕ → Fin 3 → ℚ

abbrev ByteImage : Type := ℕ → ℕ → Fin 3 → ℕ

/-- Abstract cv2 primitives called by `generate_saliency_map`: the script
only composes them, so they are embedding parameters. -/
structure CVPrims where
  resizeGray : GrayImage → ℕ × ℕ → GrayImage
  gaussianBlur11 : GrayImage → GrayImage
  colorMapJet : (ℕ → ℕ → ℕ) → ByteImage
  resizeColor : ByteImage → ℕ × ℕ → ByteImage

/-- Abstract classifier: `predict` is the forward pass (line 206 / 58) and
`inputGradient` is the `tf.GradientTape` gradient of `predictions[:, class_index]`
with respect to the input, after the batch `squeeze` (lines 55-65). -/
structure Model where
  predict : ColorImage → List ℚ
  inputGradient : ColorImage → ℕ → ColorImage

/-- Lines 63-65: `tf.math.abs` then `tf.reduce_max(..., axis=-1)` over the
3 channels of the raw gradient. -/
def channelMaxAbs (g : ColorImage) : GrayImage :=
  fun i j => max |g i j 0| (max |g i j 1| |g i j 2|)

/-- Line 69: `center = (gradients.shape[0]//2, gradients.shape[1]//2)`.
After `cv2.resize(gradients, img_size)` the array shape is
`(img_size[1], img_size[0])`. -/
def maskCenter (img_size : ℕ × ℕ) : ℤ × ℤ :=
  (((img_size.2 : ℤ)) / 2, ((img_size.1 : ℤ)) / 2)

/-- Line 70: `radius = min(center[0], center[1]) - 10`. -/
def maskRadius (img_size : ℕ × ℕ) : ℤ :=
  min (maskCenter img_size).1 (maskCenter img_size).2 - 10

/-- Lines 71-72: `y, x = np.ogrid[...]` and
`mask = (x - center[0])**2 + (y - center[1])**2 <= radius**2`, where `y`
indexes axis 0 (the row `i`) and `x` indexes axis 1 (the column `j`). -/
def circleMask (img_size : ℕ × ℕ) (i j : ℕ) : Bool :=
  decide (((j : ℤ) - (maskCenter img_size).1) ^ 2 +
    ((i : ℤ) - (maskCenter img_size).2) ^ 2 ≤ (maskRadius img_size) ^ 2)

/-- Row-major enumeration of the coordinates of an `h × w` array. -/
def gridCoords (h w : ℕ) : List (ℕ × ℕ) :=
  (List.range h).flatMap (fun i => (List.range w).map (fun j => (i, j)))

/-- Line 76: `brain_gradients = gradients[mask]` — the 1-d array of the
values at the masked coordinates, in row-major order. -/
def maskedValues (g : GrayImage) (mask : ℕ → ℕ → Bool) (h w : ℕ) : List ℚ :=
  ((gridCoords h w).filter (fun p => mask p.1 p.2)).map (fun p => g p.1 p.2)

/-- Line 74: `gradients = gradients * mask` (multiplication by the boolean
mask zeroes every value outside the mask). -/
def applyMask (g : GrayImage) (mask : ℕ → ℕ → Bool) : GrayImage :=
  fun i j => if mask i j then g i j else 0

/-- Lines 76-80: min-max normalize the masked values when
`brain_gradients.max() > brain_gradients.min()`, then write them back with
`gradients[mask] = brain_gradients` (elementwise, so pointwise on the
masked coordinates); in the degenerate case the write-back restores the
original values unchanged. -/
def normalizeStep (g : GrayImage) (mask : ℕ → ℕ → Bool) (h w : ℕ) : GrayImage :=
  let bg := maskedValues g mask h w
  if listMax bg > listMin bg then
    fun i j => if mask i j then (g i j - listMin bg) / (listMax bg - listMin bg)
      else g i j
  else g

/-- Ascending insertion of one element into a sorted list (the sorting
step inside `np.percentile`). -/
def insertAsc (a : ℚ) : List ℚ → List ℚ
  | [] => [a]
  | b :: t => if a ≤ b then a :: b :: t else b :: insertAsc a t

/-- Ascending sort (model of the sort performed by `np.percentile`). -/
def sortAsc : List ℚ → List ℚ
  | [] => []
  | a :: t => insertAsc a (sortAsc t)

/-- `np.percentile(arr, q)` with the default linear interpolation: with the
values sorted ascending, the result is `s[i] + frac * (s[i+1] - s[i])`
where `i + frac = (n - 1) * q / 100`. -/
def npPercentile (l : List ℚ) (q : ℚ) : ℚ :=
  let s := sortAsc l
  let pos : ℚ := ((l.length : ℚ) - 1) * q / 100
  let i : ℕ := (⌊pos⌋).toNat
  let lo := s.getD i 0
  let hi := s.getD (i + 1) lo
  lo + (pos - (⌊pos⌋ : ℚ)) * (hi - lo)

/-- Lines 82-83: `threshold = np.percentile(gradients[mask], 80)` followed
by `gradients[gradients < threshold] = 0`. -/
def thresholdStep (g : GrayImage) (mask : ℕ → ℕ → Bool) (h w : ℕ) : GrayImage :=
  let t := npPercentile (maskedValues g mask h w) 80
  fun i j => if g i j < t then 0 else g i j

/-- `astype(np.uint8)` / `np.uint8(...)` on a nonnegative float: truncate
and wrap into `0..255`. -/
def npUint8 (x : ℚ) : ℕ :=
  (⌊x⌋).toNat % 256

/-- cv2 `COLOR_BGR2RGB` / `COLOR_RGB2BGR`: both reverse the channel order. -/
def swapChannels (img : ByteImage) : ByteImage :=
  fun i j c => img i j (2 - c)

/-- Lines 85-89: Gaussian blur, `applyColorMap(np.uint8(255*gradients), JET)`,
`cvtColor(..., COLOR_BGR2RGB)`, `cv2.resize(..., img_size)`. -/
def heatmapStep (P : CVPrims) (g : GrayImage) (img_size : ℕ × ℕ) : ByteImage :=
  let blurred := P.gaussianBlur11 g
  let hm := P.colorMapJet (fun i j => npUint8 (255 * blurred i j))
  P.resizeColor (swapChannels hm) img_size

/-- Lines 92-93: `superimposed_img = heatmap * 0.7 + original_img * 0.3`
followed by `astype(np.uint8)`. -/
def superimposeStep (heatmap : ByteImage) (original_img : ColorImage) : ByteImage :=
  fun i j c => npUint8 ((heatmap i j c : ℚ) * (7 / 10) + original_img i j c * (3 / 10))

/-! ## Local filesystem model -/

/-- Contents of one file: either raw uploaded bytes (`f.write(...)` of the
upload buffer, line 97) or an image written by `cv2.imwrite` (line 101,
modelled as storing the BGR byte image handed to the encoder). -/
inductive FileData where
  | raw : List ℕ → FileData
  | image : ByteImage → FileData

/-- The local filesystem: an optional file content for every path. -/
abbrev FS : Type := String → Option FileData

/-- Line 25: `output_dir = 'saliency_maps'`. -/
def output_dir : String := "saliency_maps"

/-- The public attributes of the module imported as `image`
(`tensorflow.keras.preprocessing.image`) that matter here: the module has
`load_img`, `img_to_array`, `array_to_img`, `save_img` — it has no
attribute named `image_to_array`. -/
def keras_image_attributes : List String :=
  ["load_img", "img_to_array", "array_to_img", "save_img"]

/-- The error the attribute lookup `image.image_to_array` raises on
line 91. -/
def attributeErrorMsg : String :=
  "AttributeError: module tensorflow.keras.preprocessing.image has no attribute image_to_array"

/-- What the intended `image.img_to_array(img)` would return on the loaded
3-channel PIL image: the float array of its uint8 pixel values. -/
def img_to_colorArray (pix : ℕ → ℕ → Fin 3 → Fin 256) : ColorImage :=
  fun i j c => ((pix i j c).val : ℚ)

/-- Lines 54-102: the full `generate_saliency_map`.  Lines 55-90 (gradient,
mask, normalization, thresholding, blur, color map, resize) execute, then
line 91 looks up `image.image_to_array` — an attribute the Keras module
does not have (line 202 uses the correct name `img_to_array`) — so every
call raises `AttributeError` there: the blend (lines 92-93), both file
writes (lines 95-101) and the `return` (line 102) are never reached.
Returns the `Except`-wrapped result of the call, the filesystem after the
call, and the ordered list of write events `(path, data)` performed;
`img` is the PIL image loaded at line 201 that line 91 refers to. -/
def generate_saliency_map (P : CVPrims) (model : Model) (img_array : ColorImage)
    (class_index : ℕ) (img_size : ℕ × ℕ)
    (uploaded_name : String) (uploaded_bytes : List ℕ)
    (img : ℕ → ℕ → Fin 3 → Fin 256) (fs : FS) :
    Except String ByteImage × FS × List (String × FileData) :=
  let gradients0 := channelMaxAbs (model.inputGradient img_array class_index)
  let gradients1 := P.resizeGray gradients0 img_size
  let h := img_size.2
  let w := img_size.1
  let mask := circleMask img_size
  let gradients2 := applyMask gradients1 mask
  let gradients3 := normalizeStep gradients2 mask h w
  let gradients4 := thresholdStep gradients3 mask h w
  let heatmap := heatmapStep P gradients4 img_size
  if "image_to_array" ∈ keras_image_attributes then
    let original_img := img_to_colorArray img
    let superimposed := superimposeStep heatmap original_img
    let img_path := output_dir ++ "/" ++ uploaded_name
    let fs1 : FS := fun p => if p = img_path then some (FileData.raw uploaded_bytes) else fs p
    let saliency_map_path := "saliency_maps/" ++ uploaded_name
    let written := FileData.image (swapChannels superimposed)
    let fs2 : FS := fun p => if p = saliency_map_path then some written else fs1 p
    (Except.ok superimposed, fs2,
      [(img_path, FileData.raw uploaded_bytes), (saliency_map_path, written)])
  else
    (Except.error attributeErrorMsg, fs, [])

/-! ## Masked-value membership lemmas -/

theorem mem_gridCoords (h w i j : ℕ) :
    (i, j) ∈ gridCoords h w ↔ i < h ∧ j < w := by
  simp only [gridCoords, List.mem_flatMap, List.mem_map, List.mem_range,
    Prod.mk.injEq]
  constructor
  · rintro ⟨i', hi', j', hj', rfl, rfl⟩
    exact ⟨hi', hj'⟩
  · rintro ⟨hi, hj⟩
    exact ⟨i, hi, j, hj, rfl, rfl⟩

theorem mem_maskedValues_of (g : GrayImage) (mask : ℕ → ℕ → Bool) (h w i j : ℕ)
    (hi : i < h) (hj : j < w) (hm : mask i j = true) :
    g i j ∈ maskedValues g mask h w := by
  refine List.mem_map.mpr ⟨(i, j), List.mem_filter.mpr ⟨?_, hm⟩, rfl⟩
  exact (mem_gridCoords h w i j).mpr ⟨hi, hj⟩

theorem of_mem_maskedValues (g : GrayImage) (mask : ℕ → ℕ → Bool) (h w : ℕ)
    (v : ℚ) (hv : v ∈ maskedValues g mask h w) :
    ∃ i j, i < h ∧ j < w ∧ mask i j = true ∧ g i j = v := by
  obtain ⟨⟨i, j⟩, hp, hval⟩ := List.mem_map.mp hv
  obtain ⟨hmem, hm⟩ := List.mem_filter.mp hp
  obtain ⟨hi, hj⟩ := (mem_gridCoords h w i j).mp hmem
  exact ⟨i, j, hi, hj, hm, hval⟩

/-- C2: in `generate_saliency_map`, when the maximum of the masked gradient
values is strictly greater than their minimum, the min-max normalization of
lines 77-80 puts every masked value into `[0, 1]`; when the maximum equals
the minimum the branch is skipped and the gradient image is left unchanged,
so the division by `max - min` is only ever performed with a nonzero
denominator. -/
theorem normalize_step_bounds (g : GrayImage) (mask : ℕ → ℕ → Bool) (h w : ℕ) :
    (listMax (maskedValues g mask h w) > listMin (maskedValues g mask h w) →
      ∀ v ∈ maskedValues (normalizeStep g mask h w) mask h w, 0 ≤ v ∧ v ≤ 1) ∧
    (listMax (maskedValues g mask h w) = listMin (maskedValues g mask h w) →
      normalizeStep g mask h w = g) := by
  constructor
  · intro hlt v hv
    obtain ⟨i, j, hi, hj, hm, hval⟩ := of_mem_maskedValues _ mask h w v hv
    have hgmem : g i j ∈ maskedValues g mask h w :=
      mem_maskedValues_of g mask h w i j hi hj hm
    have hgle : g i j ≤ listMax (maskedValues g mask h w) :=
      le_listMax _ _ hgmem
    have hgge : listMin (maskedValues g mask h w) ≤ g i j :=
      listMin_le _ _ hgmem
    have hpos : (0 : ℚ) <
        listMax (maskedValues g mask h w) - listMin (maskedValues g mask h w) := by
      linarith
    have hnv : normalizeStep g mask h w i j =
        (g i j - listMin (maskedValues g mask h w)) /
        (listMax (maskedValues g mask h w) - listMin (maskedValues g mask h w)) := by
      simp only [normalizeStep]
      rw [if_pos hlt, if_pos hm]
    rw [← hval, hnv]
    constructor
    · exact div_nonneg (by linarith) (le_of_lt hpos)
    · rw [div_le_one hpos]; linarith
  · intro heq
    simp only [normalizeStep]
    rw [if_neg (by rw [heq]; exact lt_irrefl _)]

/-- A concrete 2×2 gradient image used to instantiate the claims. -/
def demoGrid : GrayImage := fun i j => (i : ℚ) + (j : ℚ)

/-- A mask selecting every coordinate (for concrete instances). -/
def demoMask : ℕ → ℕ → Bool := fun _ _ => true

/-- Concrete instance of C2: on the 2×2 gradient image with values
`[0, 1, 1, 2]` (max 2 > min 0), the normalized value at coordinate (0,1)
lies in `[0, 1]`. -/
theorem normalize_step_bounds_witness :
    0 ≤ normalizeStep demoGrid demoMask 2 2 0 1 ∧
    normalizeStep demoGrid demoMask 2 2 0 1 ≤ 1 := by
  refine (normalize_step_bounds demoGrid demoMask 2 2).1 ?_ _
    (mem_maskedValues_of _ demoMask 2 2 0 1 (by norm_num) (by norm_num) rfl)
  show listMin (maskedValues demoGrid demoMask 2 2) <
    listMax (maskedValues demoGrid demoMask 2 2)
  norm_num [maskedValues, gridCoords, demoMask, demoGrid, List.range_succ,
    listMax, listMin, List.foldl, max_def, min_def]

/-- C4: after the thresholding step of lines 82-83, every gradient value
strictly below the 80th percentile (computed over the values inside the
mask) is set to `0`, and every value at or above that percentile is left
unchanged. -/
theorem threshold_step_spec (g : GrayImage) (mask : ℕ → ℕ → Bool) (h w i j : ℕ) :
    (g i j < npPercentile (maskedValues g mask h w) 80 →
      thresholdStep g mask h w i j = 0) ∧
    (npPercentile (maskedValues g mask h w) 80 ≤ g i j →
      thresholdStep g mask h w i j = g i j) := by
  constructor
  · intro hlt
    simp only [thresholdStep]
    rw [if_pos hlt]
  · intro hge
    simp only [thresholdStep]
    rw [if_neg (not_lt.mpr hge)]

/-- A second concrete 2×2 gradient image, with values `[0, 1, 2, 3]`. -/
def demoGrid2 : GrayImage := fun i j => 2 * (i : ℚ) + (j : ℚ)

/-- Concrete instance of C4: on the 2×2 image with masked values
`[0, 1, 2, 3]` the 80th percentile is `2.4`, so the value `2` at
coordinate (1,0) is zeroed by the thresholding step. -/
theorem threshold_step_spec_witness :
    thresholdStep demoGrid2 demoMask 2 2 1 0 = 0 := by
  apply (threshold_step_spec demoGrid2 demoMask 2 2 1 0).1
  show demoGrid2 1 0 < npPercentile (maskedValues demoGrid2 demoMask 2 2) 80
  norm_num [demoGrid2, maskedValues, gridCoords, demoMask, List.range_succ,
    npPercentile, sortAsc, insertAsc, List.getD,
    show Int.toNat 2 = 2 from rfl]

/-- C10: for both supported display sizes the circular mask of radius
`min(h, w) // 2 - 10` selects a nonempty set of pixels (the center pixel is
always inside), so `brain_gradients.min()`, `.max()` and the percentile in
`generate_saliency_map` never operate on an empty selection. -/
theorem circle_mask_nonempty (g : GrayImage) :
    maskedValues g (circleMask (224, 224)) 224 224 ≠ [] ∧
    maskedValues g (circleMask (299, 299)) 299 299 ≠ [] := by
  constructor
  · exact List.ne_nil_of_mem (mem_maskedValues_of g _ 224 224 112 112
      (by norm_num) (by norm_num) (by decide))
  · exact List.ne_nil_of_mem (mem_maskedValues_of g _ 299 299 149 149
      (by norm_num) (by norm_num) (by decide))

/-- C3 (code bug): the claimed composite is never computed or returned.
Lines 55-90 execute, but line 91 evaluates `image.image_to_array`, an
attribute `tensorflow.keras.preprocessing.image` does not have (line 202
uses the correct name `img_to_array`), so every call to
`generate_saliency_map` raises `AttributeError` before the blend at
lines 92-93 and returns no composite image. -/
theorem saliency_blend_unreachable (P : CVPrims) (model : Model)
    (img_array : ColorImage) (class_index : ℕ) (img_size : ℕ × ℕ)
    (uploaded_name : String) (uploaded_bytes : List ℕ)
    (img : ℕ → ℕ → Fin 3 → Fin 256) (fs : FS) :
    (generate_saliency_map P model img_array class_index img_size
      uploaded_name uploaded_bytes img fs).1 =
      Except.error attributeErrorMsg := by
  have hattr : "image_to_array" ∉ keras_image_attributes := by decide
  simp only [generate_saliency_map]
  rw [if_neg hattr]

/-- C8 (code bug): no run of `generate_saliency_map` produces a composite
image to compare — on any two runs with the same model, input tensor,
class index, display size and upload (and any two filesystem states), both
calls raise the line-91 `AttributeError` instead of returning bit-identical
composite images. -/
theorem saliency_rerun_no_composite (P : CVPrims) (model : Model)
    (img_array : ColorImage) (class_index : ℕ) (img_size : ℕ × ℕ)
    (uploaded_name : String) (uploaded_bytes : List ℕ)
    (img : ℕ → ℕ → Fin 3 → Fin 256) (fs fs' : FS) :
    (generate_saliency_map P model img_array class_index img_size
      uploaded_name uploaded_bytes img fs).1 =
      Except.error attributeErrorMsg ∧
    (generate_saliency_map P model img_array class_index img_size
      uploaded_name uploaded_bytes img fs').1 =
      Except.error attributeErrorMsg := by
  have hattr : "image_to_array" ∉ keras_image_attributes := by decide
  constructor <;> (simp only [generate_saliency_map]; rw [if_neg hattr])

/-- C5 (code bug): the claimed writes never happen.  Every call to
`generate_saliency_map` raises the line-91 `AttributeError` before the
write of the raw uploaded bytes (lines 95-97) and before the `cv2.imwrite`
of the composite (lines 99-101): the write trace is empty and the
filesystem is unchanged at every path. -/
theorem saliency_writes_unreachable (P : CVPrims) (model : Model)
    (img_array : ColorImage) (class_index : ℕ) (img_size : ℕ × ℕ)
    (uploaded_name : String) (uploaded_bytes : List ℕ)
    (img : ℕ → ℕ → Fin 3 → Fin 256) (fs : FS) :
    (generate_saliency_map P model img_array class_index img_size
      uploaded_name uploaded_bytes img fs).2.1 = fs ∧
    (generate_saliency_map P model img_array class_index img_size
      uploaded_name uploaded_bytes img fs).2.2 = [] := by
  have hattr : "image_to_array" ∉ keras_image_attributes := by decide
  constructor <;> (simp only [generate_saliency_map]; rw [if_neg hattr])

/-! ## Preprocessing and model selection
(src/streamlit_app.py lines 191-204) -/

/-- A numpy array: an explicit shape plus a (total) multi-index valuation. -/
structure NpArray where
  shape : List ℕ
  val : List ℕ → ℚ

/-- Abstract Keras image loader: `image.load_img(uploaded_file, target_size)`
decodes the uploaded file and resizes it to `target_size`, producing a
3-channel uint8 RGB pixel grid. -/
structure KerasPrims where
  load_img : String → List ℕ → ℕ × ℕ → (ℕ → ℕ → Fin 3 → Fin 256)

/-- Line 202: `image.img_to_array(img)` — the float array of the pixel
values, shape `(target_size[0], target_size[1], 3)`. -/
def img_to_array (pix : ℕ → ℕ → Fin 3 → Fin 256) (target_size : ℕ × ℕ) :
    NpArray where
  shape := [target_size.1, target_size.2, 3]
  val := fun idx => ((pix (idx.getD 0 0) (idx.getD 1 0)
    ⟨idx.getD 2 0 % 3, Nat.mod_lt _ (by norm_num)⟩).val : ℚ)

/-- Line 203: `np.expand_dims(img_array, axis=0)` — a batch dimension of
size 1 in front. -/
def expand_dims0 (a : NpArray) : NpArray where
  shape := 1 :: a.shape
  val := fun idx => a.val (idx.drop 1)

/-- Line 204: `img_array /= 255.0` (elementwise scalar division). -/
def array_scalar_div (a : NpArray) (c : ℚ) : NpArray where
  shape := a.shape
  val := fun idx => a.val idx / c

/-- Lines 191-196: the Xception variant uses `img_size = (299, 299)`, the
custom CNN branch `img_size = (224, 224)`. -/
def selected_img_size (selected_model : String) : ℕ × ℕ :=
  if selected_model = "Transfer Learning - Xception" then (299, 299)
  else (224, 224)

/-- Lines 201-204: load and resize the upload, convert to an array, add
the batch dimension, scale into `[0, 1]`. -/
def preprocess_image (P : KerasPrims) (uploaded_name : String)
    (uploaded_bytes : List ℕ) (img_size : ℕ × ℕ) : NpArray :=
  array_scalar_div
    (expand_dims0
      (img_to_array (P.load_img uploaded_name uploaded_bytes img_size) img_size))
    255

theorem div255_bounds (n : ℕ) (hn : n < 256) :
    0 ≤ (n : ℚ) / 255 ∧ (n : ℚ) / 255 ≤ 1 := by
  constructor
  · positivity
  · rw [div_le_one (by norm_num : (0:ℚ) < 255)]
    exact_mod_cast Nat.le_of_lt_succ (by omega)

/-- C6: for every valid 3-channel upload, preprocessing yields a tensor of
exactly the shape the selected classifier expects — `(1, 299, 299, 3)` on
the Xception branch, `(1, 224, 224, 3)` on the custom-CNN branch — with
every value in `[0, 1]`. -/
theorem preprocess_shape_and_range (P : KerasPrims) (uploaded_name : String)
    (uploaded_bytes : List ℕ) (selected_model : String) :
    (selected_model = "Transfer Learning - Xception" →
      (preprocess_image P uploaded_name uploaded_bytes
        (selected_img_size selected_model)).shape = [1, 299, 299, 3]) ∧
    (selected_model ≠ "Transfer Learning - Xception" →
      (preprocess_image P uploaded_name uploaded_bytes
        (selected_img_size selected_model)).shape = [1, 224, 224, 3]) ∧
    (∀ idx, 0 ≤ (preprocess_image P uploaded_name uploaded_bytes
        (selected_img_size selected_model)).val idx ∧
      (preprocess_image P uploaded_name uploaded_bytes
        (selected_img_size selected_model)).val idx ≤ 1) := by
  refine ⟨?_, ?_, ?_⟩
  · intro hs
    simp [preprocess_image, array_scalar_div, expand_dims0, img_to_array,
      selected_img_size, hs]
  · intro hs
    simp [preprocess_image, array_scalar_div, expand_dims0, img_to_array,
      selected_img_size, hs]
  · intro idx
    exact div255_bounds _ (Fin.isLt _)

/-- Concrete instance of C6: with a trivial loader and the custom-CNN
selection, the preprocessed tensor has shape `(1, 224, 224, 3)` and its
value at index `(0, 0, 0, 0)` lies in `[0, 1]`. -/
theorem preprocess_shape_and_range_witness :
    (preprocess_image ⟨fun _ _ _ _ _ _ => 0⟩ "scan.png" []
      (selected_img_size "Custom CNN")).shape = [1, 224, 224, 3] ∧
    0 ≤ (preprocess_image ⟨fun _ _ _ _ _ _ => 0⟩ "scan.png" []
      (selected_img_size "Custom CNN")).val [0, 0, 0, 0] ∧
    (preprocess_image ⟨fun _ _ _ _ _ _ => 0⟩ "scan.png" []
      (selected_img_size "Custom CNN")).val [0, 0, 0, 0] ≤ 1 := by
  obtain ⟨-, h2, h3⟩ :=
    preprocess_shape_and_range ⟨fun _ _ _ _ _ _ => 0⟩ "scan.png" [] "Custom CNN"
  exact ⟨h2 (by decide), (h3 [0, 0, 0, 0]).1, (h3 [0, 0, 0, 0]).2⟩

/-! ## Model provisioning (src/streamlit_app.py lines 156-176) -/

/-- Line 163. -/
def cnn_path : String := "models/cnn_model.h5"

/-- Line 164. -/
def xception_path : String := "models/xception_model.weights.h5"

/-- Line 160. -/
def cnn_id : String := "1x9t4iiOryE2jNJ8OCcWgkbNe17YXlPnU"

/-- Line 161. -/
def xception_id : String := "10tcxflFgOtgrTXDR_fMj_3Dr4oM_rbsm"

/-- Lines 156-176: `download_models`.  `remote` abstracts the network:
it maps a direct-download URL to the bytes `gdown.download` stores at the
target path.  For each weight file, the download happens only when the
local path does not exist (`if not os.path.exists(...)`).  Returns the
updated filesystem, the list of paths actually downloaded, and the pair of
paths the function returns. -/
def download_models (remote : String → List ℕ) (fs : FS) :
    FS × List String × (String × String) :=
  let step1 :=
    if (fs cnn_path).isNone then
      ((fun p => if p = cnn_path
        then some (FileData.raw (remote ("https://drive.google.com/uc?id=" ++ cnn_id)))
        else fs p), [cnn_path])
    else (fs, ([] : List String))
  let fs1 := step1.1
  let step2 :=
    if (fs1 xception_path).isNone then
      ((fun p => if p = xception_path
        then some (FileData.raw (remote ("https://drive.google.com/uc?id=" ++ xception_id)))
        else fs1 p), [xception_path])
    else (fs1, ([] : List String))
  (step2.1, step1.2 ++ step2.2, (cnn_path, xception_path))

/-- C7: `download_models` always returns the fixed path pair
`('models/cnn_model.h5', 'models/xception_model.weights.h5')`; each of the
two weight files is downloaded (from its fixed Google-Drive URL) exactly
when its local cache path does not already exist, an existing file is
reused untouched, and no other path is modified. -/
theorem download_models_spec (remote : String → List ℕ) (fs : FS) :
    (download_models remote fs).2.2 = (cnn_path, xception_path) ∧
    ((fs cnn_path).isSome →
      (download_models remote fs).1 cnn_path = fs cnn_path ∧
      cnn_path ∉ (download_models remote fs).2.1) ∧
    (fs cnn_path = none →
      (download_models remote fs).1 cnn_path =
        some (FileData.raw (remote ("https://drive.google.com/uc?id=" ++ cnn_id))) ∧
      cnn_path ∈ (download_models remote fs).2.1) ∧
    ((fs xception_path).isSome →
      (download_models remote fs).1 xception_path = fs xception_path ∧
      xception_path ∉ (download_models remote fs).2.1) ∧
    (fs xception_path = none →
      (download_models remote fs).1 xception_path =
        some (FileData.raw (remote ("https://drive.google.com/uc?id=" ++ xception_id))) ∧
      xception_path ∈ (download_models remote fs).2.1) ∧
    (∀ p, p ≠ cnn_path → p ≠ xception_path →
      (download_models remote fs).1 p = fs p) := by
  have hne : xception_path ≠ cnn_path := by decide
  have hne' : cnn_path ≠ xception_path := by decide
  rcases hc : fs cnn_path with - | vc <;> rcases hx : fs xception_path with - | vx <;>
    refine ⟨rfl, ?_, ?_, ?_, ?_, fun p h1 h2 => ?_⟩ <;>
    simp [download_models, hne, hne', *]

/-- Concrete instance of C7: on an empty filesystem both files are
downloaded, the CNN cache path ends up holding the downloaded bytes, and
the returned pair is the fixed one. -/
theorem download_models_spec_witness :
    (download_models (fun _ => []) (fun _ => none)).2.2 =
      (cnn_path, xception_path) ∧
    (download_models (fun _ => []) (fun _ => none)).1 cnn_path =
      some (FileData.raw []) ∧
    cnn_path ∈ (download_models (fun _ => []) (fun _ => none)).2.1 := by
  obtain ⟨h1, -, h3, -, -, -⟩ :=
    download_models_spec (fun _ => []) (fun _ => none)
  exact ⟨h1, (h3 rfl).1, (h3 rfl).2⟩

/-! ## Startup API-key resolution (src/streamlit_app.py lines 17-26) -/

/-- Lines 19-22: `api_key = os.environ.get("GOOGLE_API_KEY")` when the
variable is in the process environment, else `st.secrets["GOOGLE_API_KEY"]`;
the secrets lookup raises a key-lookup error when the secret is absent. -/
def resolve_api_key (env st_secrets : String → Option String) :
    Except String String :=
  if (env "GOOGLE_API_KEY").isSome then
    Except.ok ((env "GOOGLE_API_KEY").getD "")
  else
    match st_secrets "GOOGLE_API_KEY" with
    | some v => Except.ok v
    | none => Except.error "GOOGLE_API_KEY"

/-- The module-level startup actions that follow a successful key lookup
(lines 23-26 and the UI below them). -/
inductive StartupStep where
  | configure_genai : String → StartupStep
  | makedirs_saliency : StartupStep

/-- Lines 17-26: module-level startup.  The key is resolved first; every
later step (`genai.configure`, `os.makedirs`, the UI) runs only when the
lookup succeeded, so a missing key aborts startup with the lookup error
before any request processing. -/
def app_startup (env st_secrets : String → Option String) :
    Except String (String × List StartupStep) :=
  match resolve_api_key env st_secrets with
  | Except.error e => Except.error e
  | Except.ok k =>
      Except.ok (k, [StartupStep.configure_genai k, StartupStep.makedirs_saliency])

/-- C9: at startup the API key is taken from the `GOOGLE_API_KEY`
environment variable when present, otherwise from the secrets store; when
it is absent from both, startup fails with the fatal key-lookup error and
none of the subsequent startup steps run. -/
theorem api_key_resolution (env st_secrets : String → Option String) :
    (∀ v, env "GOOGLE_API_KEY" = some v →
      app_startup env st_secrets = Except.ok
        (v, [StartupStep.configure_genai v, StartupStep.makedirs_saliency])) ∧
    (env "GOOGLE_API_KEY" = none → ∀ v, st_secrets "GOOGLE_API_KEY" = some v →
      app_startup env st_secrets = Except.ok
        (v, [StartupStep.configure_genai v, StartupStep.makedirs_saliency])) ∧
    (env "GOOGLE_API_KEY" = none → st_secrets "GOOGLE_API_KEY" = none →
      app_startup env st_secrets = Except.error "GOOGLE_API_KEY") := by
  refine ⟨?_, ?_, ?_⟩
  · intro v hv
    simp [app_startup, resolve_api_key, hv]
  · intro he v hv
    simp [app_startup, resolve_api_key, he, hv]
  · intro he hs
    simp [app_startup, resolve_api_key, he, hs]

/-- Concrete instances of C9: with the key only in the environment it is
used; with it in neither place startup fails with the lookup error. -/
theorem api_key_resolution_witness :
    app_startup (fun s => if s = "GOOGLE_API_KEY" then some "k" else none)
      (fun _ => none) = Except.ok
        ("k", [StartupStep.configure_genai "k", StartupStep.makedirs_saliency]) ∧
    app_startup (fun _ => none) (fun _ => none) =
      Except.error "GOOGLE_API_KEY" := by
  constructor
  · exact (api_key_resolution (fun s => if s = "GOOGLE_API_KEY" then some "k" else none)
      (fun _ => none)).1 "k" (by simp)
  · exact (api_key_resolution (fun _ => none) (fun _ => none)).2.2 rfl rfl

/-- Concrete instance of C10: the 224×224 mask selects at least one pixel
of the demo gradient image. -/
theorem circle_mask_nonempty_witness :
    maskedValues demoGrid (circleMask (224, 224)) 224 224 ≠ [] :=
  (circle_mask_nonempty demoGrid).1
